import Mathlib

/-!
Verification of the brewcode file-bridge backend (src/src-tauri/src/lib.rs).

The backend holds one piece of session state, `current_db_path : Option String`,
and exposes six commands: save_database_as, save_database, open_database,
export_database, get_current_db_path, check_db_exists.  We embed each command
as a function on a `World` (session state plus a model of the filesystem),
with the nondeterministic inputs of the environment (the dialog outcome and
possible OS write/read errors) passed in as explicit oracle arguments.
-/

/-- Opaque byte buffer: the backend treats database contents as raw bytes. -/
abbrev Bytes := List Nat

/-- Outcome value of the native file dialog (tauri_plugin_dialog::FilePath):
a chosen file is either a filesystem path or a URL; the code accepts only
the path variant and treats everything else as cancellation. -/
inductive FilePath where
  | path (p : String) : FilePath
  | url (u : String) : FilePath
deriving DecidableEq

/-- SaveResponse { success, path, error } returned by the save and export
commands. -/
structure SaveResponse where
  success : Bool
  path : Option String
  error : Option String
deriving DecidableEq

/-- DbPathResponse { path } returned by get_current_db_path. -/
structure DbPathResponse where
  path : Option String
deriving DecidableEq

/-- The world: the session state (AppState.current_db_path) together with a
model of the filesystem as a partial map from path strings to byte contents. -/
structure World where
  session : Option String
  fs : String → Option Bytes

/-- std::fs::write semantics on the modelled filesystem: full replace of the
contents at the given path. -/
def writeFs (fs : String → Option Bytes) (p : String) (b : Bytes) :
    String → Option Bytes :=
  fun q => if q = p then some b else fs q

/-- save_database_as: show the save dialog; if a path was chosen, write the
bytes there; on write success set current_db_path to the chosen path and
return success with it; on write failure or cancellation return failure and
leave the world unchanged.  `dialog` is the oracle for blocking_save_file and
`writeErr` injects an OS write error (none = the write succeeds). -/
def save_database_as (dialog : Option FilePath) (writeErr : Option String)
    (data : Bytes) (w : World) : SaveResponse × World :=
  match dialog with
  | some (FilePath.path p) =>
    match writeErr with
    | none =>
      (⟨true, some p, none⟩, ⟨some p, writeFs w.fs p data⟩)
    | some e =>
      (⟨false, none, some ("Failed to write file: " ++ e)⟩, w)
  | _ => (⟨false, none, some "Save cancelled"⟩, w)

/-- save_database: read current_db_path under the lock; if none, fail with the
no-path message; otherwise write the bytes to the stored path.  The session
state is never modified. -/
def save_database (writeErr : Option String) (data : Bytes) (w : World) :
    SaveResponse × World :=
  match w.session with
  | some p =>
    match writeErr with
    | none => (⟨true, some p, none⟩, ⟨w.session, writeFs w.fs p data⟩)
    | some e => (⟨false, none, some ("Failed to write file: " ++ e)⟩, w)
  | none =>
    (⟨false, none, some "No database path set. Use \x27Save As\x27 first."⟩, w)

/-- open_database: show the pick dialog; if a path was chosen, read the file;
on read success set current_db_path and return the bytes; on read failure or
cancellation return an error string and leave the world unchanged.  `readErr`
injects an OS read error; a missing file also fails the read. -/
def open_database (dialog : Option FilePath) (readErr : Option String)
    (w : World) : Except String Bytes × World :=
  match dialog with
  | some (FilePath.path p) =>
    match readErr with
    | some e => (Except.error ("Failed to read file: " ++ e), w)
    | none =>
      match w.fs p with
      | some data => (Except.ok data, ⟨some p, w.fs⟩)
      | none => (Except.error "Failed to read file: os error 2", w)
  | _ => (Except.error "Open cancelled", w)

/-- export_database: same dialog/write flow as save_database_as, but the
session state is never touched. -/
def export_database (dialog : Option FilePath) (writeErr : Option String)
    (data : Bytes) (w : World) : SaveResponse × World :=
  match dialog with
  | some (FilePath.path p) =>
    match writeErr with
    | none => (⟨true, some p, none⟩, ⟨w.session, writeFs w.fs p data⟩)
    | some e => (⟨false, none, some ("Failed to write file: " ++ e)⟩, w)
  | _ => (⟨false, none, some "Export cancelled"⟩, w)

/-- get_current_db_path: return the current value of current_db_path; no
state change. -/
def get_current_db_path (w : World) : DbPathResponse × World :=
  (⟨w.session⟩, w)

/-- check_db_exists: Ok(false) when no path is set; otherwise Ok of whether a
filesystem entry exists at the stored path.  The Except layer records that the
command always returns Ok, never an error. -/
def check_db_exists (w : World) : Except String Bool × World :=
  match w.session with
  | some p => (Except.ok (w.fs p).isSome, w)
  | none => (Except.ok false, w)

/-- Whether an Except value is the ok variant. -/
def isOkB {ε α : Type} : Except ε α → Bool
  | Except.ok _ => true
  | Except.error _ => false

/-- C1: a successful SaveAs(b) at p followed by Open() at p, with no
intervening modification of the file, returns a byte buffer equal to b. -/
theorem saveAs_open_roundTrip (b : Bytes) (p : String) (writeErr : Option String)
    (w : World)
    (h : (save_database_as (some (FilePath.path p)) writeErr b w).1.success = true) :
    (open_database (some (FilePath.path p)) none
      (save_database_as (some (FilePath.path p)) writeErr b w).2).1 = Except.ok b := by
  cases writeErr with
  | none => simp [save_database_as, open_database, writeFs]
  | some e => simp [save_database_as] at h

/-- Witness for C1 at a concrete buffer, path and empty initial world. -/
theorem saveAs_open_roundTrip_witness :
    (open_database (some (FilePath.path "a.db")) none
      (save_database_as (some (FilePath.path "a.db")) none [1, 2, 3]
        ⟨none, fun _ => none⟩).2).1 = Except.ok [1, 2, 3] :=
  saveAs_open_roundTrip [1, 2, 3] "a.db" none ⟨none, fun _ => none⟩ rfl

/-- C3: Save(b) when current_path is unset returns a failure result with
path = None and the no-path message, performs no filesystem write, and leaves
the session state unchanged (the whole world is returned untouched; the
embedding of save_database takes no dialog oracle since no dialog is shown). -/
theorem save_noPath (writeErr : Option String) (b : Bytes) (w : World)
    (h : w.session = none) :
    save_database writeErr b w =
      (⟨false, none, some "No database path set. Use \x27Save As\x27 first."⟩, w) := by
  simp [save_database, h]

/-- Witness for C3 at a concrete buffer and empty initial world. -/
theorem save_noPath_witness :
    save_database none [7] ⟨none, fun _ => none⟩ =
      (⟨false, none, some "No database path set. Use \x27Save As\x27 first."⟩,
       ⟨none, fun _ => none⟩) :=
  save_noPath none [7] ⟨none, fun _ => none⟩ rfl

/-- C4: if SaveAs(b) succeeds with chosen path p, then afterwards
current_path = p, the result carries p, GetCurrentPath returns p, and a
subsequent Save(b2) succeeds and writes b2 to p (save_database takes no
dialog oracle: no dialog is involved). -/
theorem saveAs_success_sets_path (b b2 : Bytes) (p : String)
    (writeErr : Option String) (w : World)
    (h : (save_database_as (some (FilePath.path p)) writeErr b w).1.success = true) :
    (save_database_as (some (FilePath.path p)) writeErr b w).2.session = some p ∧
    (save_database_as (some (FilePath.path p)) writeErr b w).1.path = some p ∧
    (get_current_db_path
      (save_database_as (some (FilePath.path p)) writeErr b w).2).1.path = some p ∧
    (save_database none b2
      (save_database_as (some (FilePath.path p)) writeErr b w).2).1.success = true ∧
    (save_database none b2
      (save_database_as (some (FilePath.path p)) writeErr b w).2).2.fs p = some b2 := by
  cases writeErr with
  | none =>
    refine ⟨rfl, rfl, rfl, rfl, ?_⟩
    simp [save_database_as, save_database, get_current_db_path, writeFs]
  | some e => simp [save_database_as] at h

/-- Witness for C4 at a concrete buffer, path and empty initial world. -/
theorem saveAs_success_sets_path_witness :
    (save_database_as (some (FilePath.path "a.db")) none [1] ⟨none, fun _ => none⟩).2.session
      = some "a.db" ∧
    (save_database_as (some (FilePath.path "a.db")) none [1] ⟨none, fun _ => none⟩).1.path
      = some "a.db" ∧
    (get_current_db_path
      (save_database_as (some (FilePath.path "a.db")) none [1] ⟨none, fun _ => none⟩).2).1.path
      = some "a.db" ∧
    (save_database none [2]
      (save_database_as (some (FilePath.path "a.db")) none [1] ⟨none, fun _ => none⟩).2).1.success
      = true ∧
    (save_database none [2]
      (save_database_as (some (FilePath.path "a.db")) none [1] ⟨none, fun _ => none⟩).2).2.fs "a.db"
      = some [2] :=
  saveAs_success_sets_path [1] [2] "a.db" none ⟨none, fun _ => none⟩ rfl

/-- C6: Export(b) leaves the session state untouched for every dialog outcome
and write outcome: current_path after the call equals its value before, and
GetCurrentPath returns the same response before and after. -/
theorem export_preserves_path (d : Option FilePath) (e : Option String)
    (b : Bytes) (w : World) :
    (export_database d e b w).2.session = w.session ∧
    (get_current_db_path (export_database d e b w).2).1 =
      (get_current_db_path w).1 := by
  cases d with
  | none => exact ⟨rfl, rfl⟩
  | some fp =>
    cases fp with
    | url u => exact ⟨rfl, rfl⟩
    | path p =>
      cases e with
      | none => exact ⟨rfl, rfl⟩
      | some msg => exact ⟨rfl, rfl⟩

/-- C8: check_db_exists returns Ok(false), not an error, when no path is set;
when current_path = some p it returns Ok of exactly whether the modelled
filesystem has an entry at p; and right after a successful SaveAs it returns
Ok(true). -/
theorem check_db_exists_spec (w : World) :
    (w.session = none → (check_db_exists w).1 = Except.ok false) ∧
    (∀ p, w.session = some p →
      (check_db_exists w).1 = Except.ok ((w.fs p).isSome)) ∧
    (∀ p b, (check_db_exists
      (save_database_as (some (FilePath.path p)) none b w).2).1 = Except.ok true) := by
  refine ⟨fun h => by simp [check_db_exists, h],
          fun p h => by simp [check_db_exists, h],
          fun p b => ?_⟩
  simp [check_db_exists, save_database_as, writeFs]

/-- Witness for C8 at an empty initial world and a concrete path. -/
theorem check_db_exists_spec_witness :
    (check_db_exists ⟨none, fun _ => none⟩).1 = Except.ok false ∧
    (check_db_exists ⟨some "a.db", fun _ => none⟩).1 = Except.ok false :=
  ⟨(check_db_exists_spec ⟨none, fun _ => none⟩).1 rfl,
   (check_db_exists_spec ⟨some "a.db", fun _ => none⟩).2.1 "a.db" rfl⟩

/-- A SaveResponse is well-formed when success holds exactly when a path is
present and exactly when no error is present. -/
def wellFormed (r : SaveResponse) : Prop :=
  (r.success = true ↔ r.path.isSome = true) ∧ (r.success = true ↔ r.error = none)

/-- C10: every SaveResponse produced by save_database_as, save_database or
export_database is well-formed: success iff path present, success iff error
absent. -/
theorem responses_wellFormed (d : Option FilePath) (e : Option String)
    (b : Bytes) (w : World) :
    wellFormed (save_database_as d e b w).1 ∧
    wellFormed (save_database e b w).1 ∧
    wellFormed (export_database d e b w).1 := by
  refine ⟨?_, ?_, ?_⟩
  · cases d with
    | none => simp [save_database_as, wellFormed]
    | some fp =>
      cases fp with
      | url u => simp [save_database_as, wellFormed]
      | path p =>
        cases e with
        | none => simp [save_database_as, wellFormed]
        | some msg => simp [save_database_as, wellFormed]
  · cases hs : w.session with
    | none => simp [save_database, hs, wellFormed]
    | some p =>
      cases e with
      | none => simp [save_database, hs, wellFormed]
      | some msg => simp [save_database, hs, wellFormed]
  · cases d with
    | none => simp [export_database, wellFormed]
    | some fp =>
      cases fp with
      | url u => simp [export_database, wellFormed]
      | path p =>
        cases e with
        | none => simp [export_database, wellFormed]
        | some msg => simp [export_database, wellFormed]

/-- One front-end request together with its environment oracles. -/
inductive Op where
  | saveAsOp (dialog : Option FilePath) (writeErr : Option String) (data : Bytes)
  | saveOp (writeErr : Option String) (data : Bytes)
  | openOp (dialog : Option FilePath) (readErr : Option String)
  | exportOp (dialog : Option FilePath) (writeErr : Option String) (data : Bytes)
  | getPathOp
  | checkExistsOp

/-- The world after executing one request. -/
def step (op : Op) (w : World) : World :=
  match op with
  | Op.saveAsOp d e b => (save_database_as d e b w).2
  | Op.saveOp e b => (save_database e b w).2
  | Op.openOp d r => (open_database d r w).2
  | Op.exportOp d e b => (export_database d e b w).2
  | Op.getPathOp => (get_current_db_path w).2
  | Op.checkExistsOp => (check_db_exists w).2

/-- Whether the request is an Open or SaveAs that completes successfully in
world w. -/
def setsPathSuccess (op : Op) (w : World) : Bool :=
  match op with
  | Op.saveAsOp d e b => (save_database_as d e b w).1.success
  | Op.openOp d r => isOkB (open_database d r w).1
  | _ => false

/-- The world after executing a whole trace of requests. -/
def runTrace : List Op → World → World
  | [], w => w
  | op :: rest, w => runTrace rest (step op w)

/-- Whether some request in the trace is an Open or SaveAs that completes
successfully at its point of execution. -/
def anySuccess : List Op → World → Bool
  | [], _ => false
  | op :: rest, w => setsPathSuccess op w || anySuccess rest (step op w)

theorem step_session_of_success (op : Op) (w : World)
    (h : setsPathSuccess op w = true) : (step op w).session.isSome = true := by
  cases op with
  | saveAsOp d e b =>
    cases d with
    | none => simp [setsPathSuccess, save_database_as] at h
    | some fp =>
      cases fp with
      | url u => simp [setsPathSuccess, save_database_as] at h
      | path p =>
        cases e with
        | none => simp [step, save_database_as]
        | some msg => simp [setsPathSuccess, save_database_as] at h
  | openOp d r =>
    cases d with
    | none => simp [setsPathSuccess, open_database, isOkB] at h
    | some fp =>
      cases fp with
      | url u => simp [setsPathSuccess, open_database, isOkB] at h
      | path p =>
        cases r with
        | some msg => simp [setsPathSuccess, open_database, isOkB] at h
        | none =>
          cases hf : w.fs p with
          | none => simp [setsPathSuccess, open_database, hf, isOkB] at h
          | some data => simp [step, open_database, hf]
  | saveOp e b => simp [setsPathSuccess] at h
  | exportOp d e b => simp [setsPathSuccess] at h
  | getPathOp => simp [setsPathSuccess] at h
  | checkExistsOp => simp [setsPathSuccess] at h

theorem step_session_of_failure (op : Op) (w : World)
    (h : setsPathSuccess op w = false) : (step op w).session = w.session := by
  cases op with
  | saveAsOp d e b =>
    cases d with
    | none => simp [step, save_database_as]
    | some fp =>
      cases fp with
      | url u => simp [step, save_database_as]
      | path p =>
        cases e with
        | none => simp [setsPathSuccess, save_database_as] at h
        | some msg => simp [step, save_database_as]
  | openOp d r =>
    cases d with
    | none => simp [step, open_database]
    | some fp =>
      cases fp with
      | url u => simp [step, open_database]
      | path p =>
        cases r with
        | some msg => simp [step, open_database]
        | none =>
          cases hf : w.fs p with
          | none => simp [step, open_database, hf]
          | some data => simp [setsPathSuccess, open_database, hf, isOkB] at h
  | saveOp e b =>
    cases hs : w.session with
    | none => simp [step, save_database, hs]
    | some p =>
      cases e with
      | none => simp [step, save_database, hs]
      | some msg => simp [step, save_database, hs]
  | exportOp d e b =>
    cases d with
    | none => simp [step, export_database]
    | some fp =>
      cases fp with
      | url u => simp [step, export_database]
      | path p =>
        cases e with
        | none => simp [step, export_database]
        | some msg => simp [step, export_database]
  | getPathOp => simp [step, get_current_db_path]
  | checkExistsOp =>
    cases hs : w.session with
    | none => simp [step, check_db_exists, hs]
    | some p => simp [step, check_db_exists, hs]

theorem step_session_mono (op : Op) (w : World)
    (h : w.session.isSome = true) : (step op w).session.isSome = true := by
  cases hs : setsPathSuccess op w with
  | true => exact step_session_of_success op w hs
  | false => rw [step_session_of_failure op w hs]; exact h

theorem runTrace_session_mono (tr : List Op) :
    ∀ w : World, w.session.isSome = true →
      (runTrace tr w).session.isSome = true := by
  induction tr with
  | nil => intro w h; exact h
  | cons op rest ih =>
    intro w h
    exact ih (step op w) (step_session_mono op w h)

/-- C2: starting from the initial session state (current_path unset),
current_path is set after a trace of requests exactly when some Open or
SaveAs in the trace completed successfully; and once set, current_path stays
set under any further request (monotonic within a session). -/
theorem session_set_iff_success (tr : List Op) :
    ∀ w : World,
      (w.session = none →
        (runTrace tr w).session.isSome = anySuccess tr w) ∧
      (w.session.isSome = true → (runTrace tr w).session.isSome = true) := by
  induction tr with
  | nil =>
    intro w
    refine ⟨fun h => ?_, fun h => h⟩
    simp [runTrace, anySuccess, h]
  | cons op rest ih =>
    intro w
    refine ⟨fun h => ?_, fun h => runTrace_session_mono (op :: rest) w h⟩
    show (runTrace rest (step op w)).session.isSome =
      (setsPathSuccess op w || anySuccess rest (step op w))
    cases hs : setsPathSuccess op w with
    | true =>
      have h1 : (step op w).session.isSome = true :=
        step_session_of_success op w hs
      simp [runTrace_session_mono rest (step op w) h1]
    | false =>
      have h1 : (step op w).session = none := by
        rw [step_session_of_failure op w hs]; exact h
      simpa using (ih (step op w)).1 h1

/-- Witness for C2: a trace of one successful SaveAs from the initial world. -/
theorem session_set_iff_success_witness :
    (runTrace [Op.saveAsOp (some (FilePath.path "a.db")) none [1]]
      ⟨none, fun _ => none⟩).session.isSome =
      anySuccess [Op.saveAsOp (some (FilePath.path "a.db")) none [1]]
        ⟨none, fun _ => none⟩ :=
  (session_set_iff_success [Op.saveAsOp (some (FilePath.path "a.db")) none [1]]
    ⟨none, fun _ => none⟩).1 rfl

theorem saveAs_fail_world_unchanged (d : Option FilePath) (e : Option String)
    (b : Bytes) (w : World)
    (h : (save_database_as d e b w).1.success = false) :
    (save_database_as d e b w).2 = w := by
  cases d with
  | none => rfl
  | some fp =>
    cases fp with
    | url u => rfl
    | path p =>
      cases e with
      | none => simp [save_database_as] at h
      | some msg => rfl

theorem open_fail_world_unchanged (d : Option FilePath) (r : Option String)
    (w : World) (h : isOkB (open_database d r w).1 = false) :
    (open_database d r w).2 = w := by
  cases d with
  | none => rfl
  | some fp =>
    cases fp with
    | url u => rfl
    | path p =>
      cases r with
      | some msg => rfl
      | none =>
        cases hf : w.fs p with
        | none => simp [open_database, hf]
        | some data => simp [open_database, hf, isOkB] at h

/-- C5: a SaveAs, Open or Export that does not succeed — dialog cancelled or
the underlying write/read failing — returns a failure/error result and leaves
the session state exactly as before (for SaveAs and Open the whole world is
unchanged; Export may still have written the file, but current_path is
untouched).  Cancellation is a dialog outcome with no chosen path. -/
theorem failed_ops_preserve_state (d : Option FilePath) (e r : Option String)
    (b : Bytes) (w : World) :
    ((save_database_as d e b w).1.success = false →
      (save_database_as d e b w).2 = w) ∧
    ((save_database_as none e b w).1.success = false) ∧
    (∀ msg, (save_database_as d (some msg) b w).1.success = false) ∧
    (isOkB (open_database d r w).1 = false → (open_database d r w).2 = w) ∧
    (isOkB (open_database none r w).1 = false) ∧
    (∀ msg, isOkB (open_database d (some msg) w).1 = false) ∧
    ((export_database d e b w).1.success = false →
      (export_database d e b w).2.session = w.session) ∧
    ((export_database none e b w).1.success = false) ∧
    (∀ msg, (export_database d (some msg) b w).1.success = false) := by
  refine ⟨saveAs_fail_world_unchanged d e b w, rfl, ?_,
          open_fail_world_unchanged d r w, rfl, ?_, ?_, rfl, ?_⟩
  · intro msg
    cases d with
    | none => rfl
    | some fp =>
      cases fp with
      | url u => rfl
      | path p => rfl
  · intro msg
    cases d with
    | none => rfl
    | some fp =>
      cases fp with
      | url u => rfl
      | path p => rfl
  · intro h
    cases d with
    | none => rfl
    | some fp =>
      cases fp with
      | url u => rfl
      | path p =>
        cases e with
        | none => simp [export_database] at h
        | some msg => rfl
  · intro msg
    cases d with
    | none => rfl
    | some fp =>
      cases fp with
      | url u => rfl
      | path p => rfl

/-- Witness for C5: a cancelled SaveAs on a concrete world leaves it
unchanged, and the response is a failure. -/
theorem failed_ops_preserve_state_witness :
    (save_database_as none none [1] ⟨some "a.db", fun _ => none⟩).2 =
      ⟨some "a.db", fun _ => none⟩ ∧
    isOkB (open_database none none ⟨some "a.db", fun _ => none⟩).1 = false :=
  ⟨(failed_ops_preserve_state none none none [1]
      ⟨some "a.db", fun _ => none⟩).1 rfl,
   (failed_ops_preserve_state none none none [1]
      ⟨some "a.db", fun _ => none⟩).2.2.2.2.1⟩

/-- C7: only a successful Open or SaveAs ever changes current_path: Save in
every outcome, GetCurrentPath, CheckExists, Export in every outcome, a failed
SaveAs and a failed Open all leave current_path as it was. -/
theorem only_open_saveAs_mutate_path (d : Option FilePath) (e r : Option String)
    (b : Bytes) (w : World) :
    ((save_database e b w).2.session = w.session) ∧
    ((get_current_db_path w).2 = w) ∧
    ((check_db_exists w).2 = w) ∧
    ((export_database d e b w).2.session = w.session) ∧
    ((save_database_as d e b w).1.success = false →
      (save_database_as d e b w).2.session = w.session) ∧
    (isOkB (open_database d r w).1 = false →
      (open_database d r w).2.session = w.session) := by
  refine ⟨?_, rfl, ?_, ?_, ?_, ?_⟩
  · cases hs : w.session with
    | none => simp [save_database, hs]
    | some p =>
      cases e with
      | none => simp [save_database, hs]
      | some msg => simp [save_database, hs]
  · cases hs : w.session with
    | none => simp [check_db_exists, hs]
    | some p => simp [check_db_exists, hs]
  · cases d with
    | none => rfl
    | some fp =>
      cases fp with
      | url u => rfl
      | path p =>
        cases e with
        | none => rfl
        | some msg => rfl
  · intro h
    rw [saveAs_fail_world_unchanged d e b w h]
  · intro h
    rw [open_fail_world_unchanged d r w h]

/-- Witness for C7 at a concrete world: a failed (cancelled) SaveAs leaves
current_path unchanged. -/
theorem only_open_saveAs_mutate_path_witness :
    (save_database_as none none [1] ⟨some "a.db", fun _ => none⟩).2.session =
      some "a.db" :=
  (only_open_saveAs_mutate_path none none none [1]
    ⟨some "a.db", fun _ => none⟩).2.2.2.2.1 rfl

/-- Atomic events of one command, in program order, as they occur in the
source: lock acquisition/release of the current_db_path mutex, reads and
writes of the guarded field, filesystem operations and the blocking dialog
call.  A MutexGuard in Rust is released where it is dropped: at the end of
its enclosing scope. -/
inductive Event where
  | lockAcquire
  | lockRelease
  | fieldRead
  | fieldWrite
  | fsWriteEv
  | fsReadEv
  | fsExistsEv
  | dialogCall
deriving DecidableEq

/-- Event trace of save_database_as: dialog first (no lock); on a chosen
path, the filesystem write; only on write success is the lock taken, the
field written, and the guard dropped at the end of that branch. -/
def save_database_as_events (dialog : Option FilePath)
    (writeErr : Option String) : List Event :=
  Event.dialogCall ::
    match dialog with
    | some (FilePath.path _) =>
      Event.fsWriteEv ::
        (match writeErr with
         | none => [Event.lockAcquire, Event.fieldWrite, Event.lockRelease]
         | some _ => [])
    | _ => []

/-- Event trace of save_database: the guard is taken at the top of the
function and dropped at its end, so when a path is set the filesystem write
happens while the lock is held. -/
def save_database_events (session : Option String) : List Event :=
  match session with
  | some _ => [Event.lockAcquire, Event.fieldRead, Event.fsWriteEv,
               Event.lockRelease]
  | none => [Event.lockAcquire, Event.fieldRead, Event.lockRelease]

/-- Event trace of open_database: dialog, then the filesystem read; only on
read success is the lock taken and the field written. -/
def open_database_events (dialog : Option FilePath) (readOk : Bool) :
    List Event :=
  Event.dialogCall ::
    match dialog with
    | some (FilePath.path _) =>
      Event.fsReadEv ::
        (if readOk
         then [Event.lockAcquire, Event.fieldWrite, Event.lockRelease]
         else [])
    | _ => []

/-- Event trace of export_database: dialog and write, no lock at all. -/
def export_database_events (dialog : Option FilePath) : List Event :=
  Event.dialogCall ::
    match dialog with
    | some (FilePath.path _) => [Event.fsWriteEv]
    | _ => []

/-- Event trace of get_current_db_path: lock, read, release. -/
def get_current_db_path_events : List Event :=
  [Event.lockAcquire, Event.fieldRead, Event.lockRelease]

/-- Event trace of check_db_exists: the guard is taken at the top and dropped
at the end, so when a path is set the filesystem existence check happens
while the lock is held. -/
def check_db_exists_events (session : Option String) : List Event :=
  match session with
  | some _ => [Event.lockAcquire, Event.fieldRead, Event.fsExistsEv,
               Event.lockRelease]
  | none => [Event.lockAcquire, Event.fieldRead, Event.lockRelease]

/-- Whether an event is filesystem I/O or the blocking dialog call. -/
def isIoEvent : Event → Bool
  | Event.fsWriteEv => true
  | Event.fsReadEv => true
  | Event.fsExistsEv => true
  | Event.dialogCall => true
  | _ => false

/-- Whether, starting at the given lock depth, some I/O or dialog event of
the trace occurs while the lock is held. -/
def lockAcrossIo : List Event → Nat → Bool
  | [], _ => false
  | ev :: rest, depth =>
    (isIoEvent ev && decide (0 < depth)) ||
      lockAcrossIo rest
        (match ev with
         | Event.lockAcquire => depth + 1
         | Event.lockRelease => depth - 1
         | _ => depth)

/-- C9 counterexample: in save_database with a path set, the current_db_path
lock is held across the filesystem write, contradicting the claim that the
lock is never held across a filesystem I/O operation. -/
theorem lock_across_io_counterexample :
    lockAcrossIo (save_database_events (some "a.db")) 0 = true := by
  decide

/-- C9 amended: the lock is never held across the blocking dialog call, and
save_database_as, open_database, export_database and get_current_db_path
hold it only around the single access of current_db_path; but save_database
with a path set holds the lock across the filesystem write, and
check_db_exists with a path set holds it across the filesystem existence
check. -/
theorem lock_discipline_amended :
    (∀ (d : Option FilePath) (e : Option String),
      lockAcrossIo (save_database_as_events d e) 0 = false) ∧
    (∀ (d : Option FilePath) (r : Bool),
      lockAcrossIo (open_database_events d r) 0 = false) ∧
    (∀ d : Option FilePath, lockAcrossIo (export_database_events d) 0 = false) ∧
    (lockAcrossIo get_current_db_path_events 0 = false) ∧
    (lockAcrossIo (save_database_events none) 0 = false) ∧
    (lockAcrossIo (check_db_exists_events none) 0 = false) ∧
    (∀ p : String, lockAcrossIo (save_database_events (some p)) 0 = true) ∧
    (∀ p : String, lockAcrossIo (check_db_exists_events (some p)) 0 = true) := by
  refine ⟨?_, ?_, ?_, by decide, by decide, by decide, fun p => rfl, fun p => rfl⟩
  · intro d e
    cases d with
    | none => rfl
    | some fp =>
      cases fp with
      | url u => rfl
      | path p =>
        cases e with
        | none => rfl
        | some msg => rfl
  · intro d r
    cases d with
    | none => rfl
    | some fp =>
      cases fp with
      | url u => rfl
      | path p =>
        cases r with
        | true => rfl
        | false => rfl
  · intro d
    cases d with
    | none => rfl
    | some fp =>
      cases fp with
      | url u => rfl
      | path p => rfl
